import Mathlib

/-!
Shallow embedding of the kops Azure resource reclamation adapter
(`pkg/resources/azure`, file `azure.go` of the repository) in Lean 4.

Modelling conventions:
* Go `map[string]*string` tag maps are modelled as association lists
  `List (String × Option String)`; a `none` value models a nil pointer and a
  dereference of a nil pointer is modelled as an `Except.error` (in Go it is a
  runtime panic that likewise aborts the listing with no result).
* Go pointer fields whose nilness the source never tests, and immediately
  dereferences (e.g. `*rg.Name`), are modelled as plain values; pointer fields
  the source explicitly compares with nil (`vnet.Subnets`,
  `sn.NetworkSecurityGroup`, `ip.LoadBalancerBackendAddressPools`,
  `loadBalancer.FrontendIPConfigurations`, `vm.StorageProfile.DataDisks`,
  `ra.PrincipalID`) are modelled as `Option`.
* Go maps used as sets (`map[string]struct{}`) are modelled as duplicate-free
  lists in insertion order; Go map iteration order is unspecified, so this is
  one determinization of it, and no theorem below depends on that order.
* Go maps keyed by strings (the resource map, the principal-ID map) are
  modelled as association lists in which a later store is consed to the front
  and lookup takes the frontmost binding, which is exactly Go's
  overwrite-on-store semantics.
* Each Azure API `List` call is modelled by a field of `AzureCloudState`
  holding the value that call would return: either the listed data or an
  error, mirroring the `(result, error)` pair of the Go SDK call.
* The `Obj` payload and the `Deleter` callback of `resources.Resource` are
  not modelled: no claim below concerns them, and they carry no data the
  listing logic reads back.
-/

instance {ε α : Type} [DecidableEq ε] [DecidableEq α] : DecidableEq (Except ε α) := fun a b =>
  match a, b with
  | .error e1, .error e2 =>
    if h : e1 = e2 then isTrue (by rw [h])
    else isFalse (fun hc => h (Except.error.inj hc))
  | .ok v1, .ok v2 =>
    if h : v1 = v2 then isTrue (by rw [h])
    else isFalse (fun hc => h (Except.ok.inj hc))
  | .error _, .ok _ => isFalse (fun hc => Except.noConfusion hc)
  | .ok _, .error _ => isFalse (fun hc => Except.noConfusion hc)

/-- Resource type tag constants of `azure.go`. -/
def typeResourceGroup : String := "ResourceGroup"

def typeVirtualNetwork : String := "VirtualNetwork"

def typeNetworkSecurityGroup : String := "NetworkSecurityGroup"

def typeSubnet : String := "Subnet"

def typeRouteTable : String := "RouteTable"

def typeVMScaleSet : String := "VMScaleSet"

def typeDisk : String := "Disk"

def typeRoleAssignment : String := "RoleAssignment"

def typeLoadBalancer : String := "LoadBalancer"

def typePublicIPAddress : String := "PublicIPAddress"

/-- Modelled from the spec: `azure.TagClusterName`, the designated cluster-name
tag key, is defined in `upup/pkg/fi/cloudup/azure` which is not under `src/`;
the spec calls it "a designated tag key". Its concrete value is irrelevant to
every claim. -/
def TagClusterName : String := "KubernetesCluster"

/-- Embeds `resources.Resource`, restricted to the fields the Azure adapter writes and
the engine reads (`Obj` and `Deleter` omitted, see the header comment). The
field `Rtype` embeds the Go field `Type` (a Lean keyword). Defaults are the Go
zero values, so a builder that leaves a field unset behaves as the Go struct
literal does. -/
structure Resource where
  Rtype : String
  ID : String
  Name : String
  Blocks : List String := []
  Shared : Bool := false
  Done : Bool := false
deriving DecidableEq, Repr

/-- Embeds `resources.ClusterInfo`, restricted to the fields `azure.go` reads. -/
structure ClusterInfo where
  Name : String
  AzureResourceGroupName : String
  AzureResourceGroupShared : Bool
  AzureNetworkShared : Bool
  AzureRouteTableShared : Bool
deriving DecidableEq, Repr

/-- Embeds `azureresources.Group`: the fields read are `Tags` and `*rg.Name`. -/
structure GroupData where
  Name : String
  Tags : List (String × Option String)
deriving DecidableEq, Repr

/-- A subnet element of `*vnet.Subnets`: the adapter reads only
`sn.NetworkSecurityGroup` (nil-checked) and then `*sn.NetworkSecurityGroup.ID`. -/
structure VNetSubnetInfo where
  NetworkSecurityGroupID : Option String
deriving DecidableEq, Repr

/-- Embeds `network.VirtualNetwork`: fields read are `Tags`, `*vnet.Name` and
`vnet.Subnets` (nil-checked). -/
structure VirtualNetworkData where
  Name : String
  Tags : List (String × Option String)
  Subnets : Option (List VNetSubnetInfo)
deriving DecidableEq, Repr

/-- Embeds `network.Subnet` as returned by `cloud.Subnet().List`: the adapter reads
only `*subnet.Name`. `Tags` is carried (the SDK type has properties) but never
read, witnessing that subnet materialization ignores the subnet's own tags. -/
structure SubnetData where
  Name : String
  Tags : List (String × Option String)
deriving DecidableEq, Repr

/-- Embeds `network.SecurityGroup`: the adapter reads only `*NetworkSecurityGroup.Name`
(note: `listNetworkSecurityGroups` applies no ownership filter). -/
structure NetworkSecurityGroupData where
  Name : String
deriving DecidableEq, Repr

/-- Embeds `network.RouteTable`: fields read are `Tags` and `*rt.Name`. -/
structure RouteTableData where
  Name : String
  Tags : List (String × Option String)
deriving DecidableEq, Repr

/-- One element of `*iface.IPConfigurations`: fields read are `*ip.Subnet.ID`
and `ip.LoadBalancerBackendAddressPools` (nil-checked, elements read as
`*lb.ID`). -/
structure IPConfigData where
  SubnetID : String
  LoadBalancerBackendAddressPools : Option (List String)
deriving DecidableEq, Repr

/-- One element of
`*vmss.VirtualMachineProfile.NetworkProfile.NetworkInterfaceConfigurations`. -/
structure NICData where
  IPConfigurations : List IPConfigData
deriving DecidableEq, Repr

/-- Embeds `compute.VirtualMachineScaleSet`: fields read are `Tags`, `*vmss.Name`,
`*vmss.Identity.PrincipalID` and the network interface configurations. -/
structure VMScaleSetData where
  Name : String
  Tags : List (String × Option String)
  PrincipalID : String
  NetworkInterfaceConfigurations : List NICData
deriving DecidableEq, Repr

/-- Embeds `compute.VirtualMachineScaleSetVM`: the adapter reads
`vm.StorageProfile.DataDisks` (nil-checked) and each disk's `*d.Name`. -/
structure VMData where
  DataDisks : Option (List String)
deriving DecidableEq, Repr

/-- Embeds `compute.Disk`: fields read are `Tags` and `*disk.Name`. -/
structure DiskData where
  Name : String
  Tags : List (String × Option String)
deriving DecidableEq, Repr

/-- Embeds `authz.RoleAssignment`: fields read are `ra.PrincipalID` (nil-checked) and
`*ra.Name`. -/
structure RoleAssignmentData where
  Name : String
  PrincipalID : Option String
deriving DecidableEq, Repr

/-- One element of `*loadBalancer.FrontendIPConfigurations`: the adapter reads
`fip.PublicIPAddress` (nil-checked) and then `*fip.PublicIPAddress.ID`. -/
structure FrontendIPConfigData where
  PublicIPAddressID : Option String
deriving DecidableEq, Repr

/-- Embeds `network.LoadBalancer`: fields read are `Tags`, `*loadBalancer.Name` and
`loadBalancer.FrontendIPConfigurations` (nil-checked). -/
structure LoadBalancerData where
  Name : String
  Tags : List (String × Option String)
  FrontendIPConfigurations : Option (List FrontendIPConfigData)
deriving DecidableEq, Repr

/-- Embeds `network.PublicIPAddress`: fields read are `Tags` and
`*publicIPAddress.Name`. -/
structure PublicIPAddressData where
  Name : String
  Tags : List (String × Option String)
deriving DecidableEq, Repr

/-- The responses of the Azure API `List` calls the adapter makes: each field
is the value the corresponding `g.cloud.<Kind>().List(...)` call returns
(data or error). `subnets` is keyed by the virtual network name and `vmssVMs`
by the scale-set name, mirroring the extra argument of those calls. -/
structure AzureCloudState where
  resourceGroups : Except String (List GroupData)
  virtualNetworks : Except String (List VirtualNetworkData)
  subnets : String → Except String (List SubnetData)
  networkSecurityGroups : Except String (List NetworkSecurityGroupData)
  routeTables : Except String (List RouteTableData)
  vmScaleSets : Except String (List VMScaleSetData)
  vmssVMs : String → Except String (List VMData)
  disks : Except String (List DiskData)
  roleAssignments : Except String (List RoleAssignmentData)
  loadBalancers : Except String (List LoadBalancerData)
  publicIPAddresses : Except String (List PublicIPAddressData)

/-- Embeds `toKey` of `azure.go`: `rtype + ":" + id`. -/
def toKey (rtype id : String) : String :=
  rtype ++ ":" ++ id

/-- Embeds `isOwnedByCluster` of `azure.go`: iterates the tag map and returns true on
the first tag with `k == azure.TagClusterName && *v == g.clusterInfo.Name`.
Go's `&&` short-circuits, so `*v` is dereferenced only when the key matches;
a nil `v` under the matching key panics, modelled as `Except.error`. -/
def isOwnedByCluster (clusterName : String) : List (String × Option String) → Except String Bool
  | [] => .ok false
  | (k, none) :: rest =>
    if k = TagClusterName then .error "invalid memory address or nil pointer dereference"
    else isOwnedByCluster clusterName rest
  | (k, some s) :: rest =>
    if k = TagClusterName then
      if s = clusterName then .ok true else isOwnedByCluster clusterName rest
    else isOwnedByCluster clusterName rest

/-- Insertion into a Go `map[string]struct{}` used as a set, determinized to
insertion order (see header comment). -/
def insertIfAbsent (l : List String) (s : String) : List String :=
  if s ∈ l then l else l ++ [s]

/-- Split a character list at `/`, accumulating the current (reversed)
segment. -/
def splitSlashAux : List Char → List Char → List String
  | [], cur => [String.mk cur.reverse]
  | c :: rest, cur =>
    if c = '/' then String.mk cur.reverse :: splitSlashAux rest []
    else splitSlashAux rest (c :: cur)

/-- The `/`-separated segments of an ARM resource ID. -/
def splitSlash (s : String) : List String :=
  splitSlashAux s.data []

/-- The segment following `seg` in a `/`-separated ARM resource ID path. -/
def segmentAfter (seg : String) : List String → Option String
  | [] => none
  | [_] => none
  | a :: b :: rest => if a = seg then some b else segmentAfter seg (b :: rest)

/-- Modelled from the spec: `azure.ParseNetworkSecurityGroupID` lives in
`upup/pkg/fi/cloudup/azure`, not under `src/`; it extracts the network security
group name from an ARM resource ID (`.../networkSecurityGroups/<name>`) or
fails on a malformed ID. -/
def ParseNetworkSecurityGroupID (id : String) : Except String String :=
  match segmentAfter "networkSecurityGroups" (splitSlash id) with
  | some n => .ok n
  | none => .error ("invalid network security group ID: " ++ id)

/-- The parsed form of an Azure subnet ID. -/
structure SubnetID where
  VirtualNetworkName : String
  SubnetName : String
deriving DecidableEq, Repr

/-- Modelled from the spec: `azure.ParseSubnetID` lives outside `src/`; it
extracts the virtual-network and subnet names from an ARM subnet ID
(`.../virtualNetworks/<vnet>/subnets/<subnet>`) or fails. -/
def ParseSubnetID (id : String) : Except String SubnetID :=
  match segmentAfter "virtualNetworks" (splitSlash id),
      segmentAfter "subnets" (splitSlash id) with
  | some v, some s => .ok { VirtualNetworkName := v, SubnetName := s }
  | _, _ => .error ("invalid subnet ID: " ++ id)

/-- Modelled from the spec: `azure.ParseLoadBalancerID` lives outside `src/`;
it extracts the load balancer name from an ARM resource ID or fails. -/
def ParseLoadBalancerID (id : String) : Except String String :=
  match segmentAfter "loadBalancers" (splitSlash id) with
  | some n => .ok n
  | none => .error ("invalid load balancer ID: " ++ id)

/-- Modelled from the spec: `azure.ParsePublicIPAddressID` lives outside
`src/`; it extracts the public IP address name from an ARM resource ID or
fails. -/
def ParsePublicIPAddressID (id : String) : Except String String :=
  match segmentAfter "publicIPAddresses" (splitSlash id) with
  | some n => .ok n
  | none => .error ("invalid public IP address ID: " ++ id)

/-- Embeds `toResourceGroupResource`: `Blocks` is left at the Go zero value (nil). -/
def toResourceGroupResource (info : ClusterInfo) (rg : GroupData) : Resource :=
  { Rtype := typeResourceGroup
    ID := rg.Name
    Name := rg.Name
    Shared := info.AzureResourceGroupShared }

/-- The loop body of `listResourceGroups`: ownership-filter each group. -/
def resourceGroupLoop (info : ClusterInfo) : List GroupData → Except String (List Resource)
  | [] => .ok []
  | rg :: rest =>
    match isOwnedByCluster info.Name rg.Tags with
    | .error e => .error e
    | .ok owned =>
      match resourceGroupLoop info rest with
      | .error e => .error e
      | .ok tail => .ok (if owned then toResourceGroupResource info rg :: tail else tail)

/-- Embeds `listResourceGroups` of `azure.go`. -/
def listResourceGroups (cloud : AzureCloudState) (info : ClusterInfo) :
    Except String (List Resource) :=
  match cloud.resourceGroups with
  | .error e => .error e
  | .ok rgs => resourceGroupLoop info rgs

/-- The set of network security group names referenced by a virtual network's
subnets, as collected by `toVirtualNetworkResource` (`nsgs` map-as-set). -/
def collectNSGs : List VNetSubnetInfo → List String → Except String (List String)
  | [], acc => .ok acc
  | sn :: rest, acc =>
    match sn.NetworkSecurityGroupID with
    | none => collectNSGs rest acc
    | some id =>
      match ParseNetworkSecurityGroupID id with
      | .error e => .error ("parsing network security group ID: " ++ e)
      | .ok name => collectNSGs rest (insertIfAbsent acc name)

/-- Embeds `toVirtualNetworkResource`: blocks the resource group and every network
security group referenced by a subnet of the network. -/
def toVirtualNetworkResource (info : ClusterInfo) (vnet : VirtualNetworkData) :
    Except String Resource :=
  match collectNSGs (vnet.Subnets.getD []) [] with
  | .error e => .error e
  | .ok nsgs =>
    .ok { Rtype := typeVirtualNetwork
          ID := vnet.Name
          Name := vnet.Name
          Blocks := toKey typeResourceGroup info.AzureResourceGroupName ::
            nsgs.map (toKey typeNetworkSecurityGroup)
          Shared := info.AzureNetworkShared }

/-- Embeds `toSubnetResource`: blocks exactly the parent virtual network and the
resource group. -/
def toSubnetResource (info : ClusterInfo) (subnet : SubnetData) (vnetName : String) :
    Resource :=
  { Rtype := typeSubnet
    ID := subnet.Name
    Name := subnet.Name
    Blocks := [toKey typeVirtualNetwork vnetName,
      toKey typeResourceGroup info.AzureResourceGroupName]
    Shared := info.AzureNetworkShared }

/-- Embeds `listSubnets` of `azure.go`: every subnet of the named virtual network is
materialized, with no ownership filtering. -/
def listSubnets (cloud : AzureCloudState) (info : ClusterInfo) (vnetName : String) :
    Except String (List Resource) :=
  match cloud.subnets vnetName with
  | .error e => .error e
  | .ok sns => .ok (sns.map (fun sn => toSubnetResource info sn vnetName))

/-- The loop body of `listVirtualNetworksAndSubnets`: for each owned network,
emit its resource followed by all of its subnets' resources. -/
def vnetLoop (cloud : AzureCloudState) (info : ClusterInfo) :
    List VirtualNetworkData → Except String (List Resource)
  | [] => .ok []
  | vnet :: rest =>
    match isOwnedByCluster info.Name vnet.Tags with
    | .error e => .error e
    | .ok false => vnetLoop cloud info rest
    | .ok true =>
      match toVirtualNetworkResource info vnet with
      | .error e => .error e
      | .ok r =>
        match listSubnets cloud info vnet.Name with
        | .error e => .error e
        | .ok sns =>
          match vnetLoop cloud info rest with
          | .error e => .error e
          | .ok tail => .ok (r :: (sns ++ tail))

/-- Embeds `listVirtualNetworksAndSubnets` of `azure.go`. -/
def listVirtualNetworksAndSubnets (cloud : AzureCloudState) (info : ClusterInfo) :
    Except String (List Resource) :=
  match cloud.virtualNetworks with
  | .error e => .error e
  | .ok vnets => vnetLoop cloud info vnets

/-- Embeds `toNetworkSecurityGroupResource`. -/
def toNetworkSecurityGroupResource (info : ClusterInfo) (nsg : NetworkSecurityGroupData) :
    Resource :=
  { Rtype := typeNetworkSecurityGroup
    ID := nsg.Name
    Name := nsg.Name
    Blocks := [toKey typeResourceGroup info.AzureResourceGroupName]
    Shared := info.AzureNetworkShared }

/-- Embeds `listNetworkSecurityGroups` of `azure.go` (no ownership filter in the
source). -/
def listNetworkSecurityGroups (cloud : AzureCloudState) (info : ClusterInfo) :
    Except String (List Resource) :=
  match cloud.networkSecurityGroups with
  | .error e => .error e
  | .ok nsgs => .ok (nsgs.map (toNetworkSecurityGroupResource info))

/-- Embeds `toRouteTableResource`. -/
def toRouteTableResource (info : ClusterInfo) (rt : RouteTableData) : Resource :=
  { Rtype := typeRouteTable
    ID := rt.Name
    Name := rt.Name
    Blocks := [toKey typeResourceGroup info.AzureResourceGroupName]
    Shared := info.AzureRouteTableShared }

/-- The loop body of `listRouteTables`. -/
def routeTableLoop (info : ClusterInfo) : List RouteTableData → Except String (List Resource)
  | [] => .ok []
  | rt :: rest =>
    match isOwnedByCluster info.Name rt.Tags with
    | .error e => .error e
    | .ok owned =>
      match routeTableLoop info rest with
      | .error e => .error e
      | .ok tail => .ok (if owned then toRouteTableResource info rt :: tail else tail)

/-- Embeds `listRouteTables` of `azure.go`. -/
def listRouteTables (cloud : AzureCloudState) (info : ClusterInfo) :
    Except String (List Resource) :=
  match cloud.routeTables with
  | .error e => .error e
  | .ok rts => routeTableLoop info rts

/-- The inner loop over `*lb.LoadBalancerBackendAddressPools` in
`toVMScaleSetResource`. -/
def collectLBs : List String → List String → Except String (List String)
  | [], acc => .ok acc
  | id :: rest, acc =>
    match ParseLoadBalancerID id with
    | .error e => .error ("parsing load balancer ID: " ++ e)
    | .ok name => collectLBs rest (insertIfAbsent acc name)

/-- The loop over `*iface.IPConfigurations` in `toVMScaleSetResource`,
accumulating the `vnets`, `subnets` and `lbs` sets. -/
def collectIPConfigs :
    List IPConfigData → List String × List String × List String →
    Except String (List String × List String × List String)
  | [], acc => .ok acc
  | ip :: rest, (vnets, subnets, lbs) =>
    match ParseSubnetID ip.SubnetID with
    | .error e => .error ("error on parsing subnet ID: " ++ e)
    | .ok sid =>
      match ip.LoadBalancerBackendAddressPools with
      | none =>
        collectIPConfigs rest
          (insertIfAbsent vnets sid.VirtualNetworkName,
            insertIfAbsent subnets sid.SubnetName, lbs)
      | some pools =>
        match collectLBs pools lbs with
        | .error e => .error e
        | .ok lbs2 =>
          collectIPConfigs rest
            (insertIfAbsent vnets sid.VirtualNetworkName,
              insertIfAbsent subnets sid.SubnetName, lbs2)

/-- The outer loop over the network interface configurations in
`toVMScaleSetResource`. -/
def collectNICs :
    List NICData → List String × List String × List String →
    Except String (List String × List String × List String)
  | [], acc => .ok acc
  | nic :: rest, acc =>
    match collectIPConfigs nic.IPConfigurations acc with
    | .error e => .error e
    | .ok acc2 => collectNICs rest acc2

/-- The data-disk block keys contributed by the scale set's VMs in
`toVMScaleSetResource`. -/
def collectDataDiskBlocks : List VMData → List String
  | [] => []
  | vm :: rest =>
    (match vm.DataDisks with
      | none => []
      | some ds => ds.map (toKey typeDisk)) ++ collectDataDiskBlocks rest

/-- Embeds `toVMScaleSetResource`: blocks the resource group, the referenced virtual
networks, subnets and load balancers, and the VMs' data disks. The Go struct
literal sets no `Shared` field, so it is the zero value `false`. -/
def toVMScaleSetResource (info : ClusterInfo) (vmss : VMScaleSetData)
    (vms : List VMData) : Except String Resource :=
  match collectNICs vmss.NetworkInterfaceConfigurations ([], [], []) with
  | .error e => .error e
  | .ok (vnets, subnets, lbs) =>
    .ok { Rtype := typeVMScaleSet
          ID := vmss.Name
          Name := vmss.Name
          Blocks := toKey typeResourceGroup info.AzureResourceGroupName ::
            (vnets.map (toKey typeVirtualNetwork) ++
              subnets.map (toKey typeSubnet) ++
              lbs.map (toKey typeLoadBalancer) ++
              collectDataDiskBlocks vms) }

/-- Embeds `toRoleAssignmentResource`: blocks exactly the resource group and the
scale set whose principal the assignment matches; `Shared` is the zero value
`false`. -/
def toRoleAssignmentResource (info : ClusterInfo) (ra : RoleAssignmentData)
    (vmss : VMScaleSetData) : Resource :=
  { Rtype := typeRoleAssignment
    ID := ra.Name
    Name := ra.Name
    Blocks := [toKey typeResourceGroup info.AzureResourceGroupName,
      toKey typeVMScaleSet vmss.Name] }

/-- Lookup in the Go map `principalIDs` (frontmost binding wins, matching
overwrite-on-store). -/
def lookupVMSS : List (String × VMScaleSetData) → String → Option VMScaleSetData
  | [], _ => none
  | (k2, v) :: rest, k => if k2 = k then some v else lookupVMSS rest k

/-- The loop body of `listRoleAssignments`: a role assignment is emitted iff
its `PrincipalID` is non-nil and is a key of the `principalIDs` map. -/
def roleAssignmentLoop (info : ClusterInfo) (pids : List (String × VMScaleSetData)) :
    List RoleAssignmentData → List Resource
  | [] => []
  | ra :: rest =>
    match ra.PrincipalID with
    | none => roleAssignmentLoop info pids rest
    | some p =>
      match lookupVMSS pids p with
      | none => roleAssignmentLoop info pids rest
      | some vmss => toRoleAssignmentResource info ra vmss :: roleAssignmentLoop info pids rest

/-- Embeds `listRoleAssignments` of `azure.go`. -/
def listRoleAssignments (cloud : AzureCloudState) (info : ClusterInfo)
    (pids : List (String × VMScaleSetData)) : Except String (List Resource) :=
  match cloud.roleAssignments with
  | .error e => .error e
  | .ok ras => .ok (roleAssignmentLoop info pids ras)

/-- The loop of `listVMScaleSetsAndRoleAssignments` over the scale sets:
ownership-filter, list the scale set's VMs, build the resource, and record
`principalIDs[*vmss.Identity.PrincipalID] = vmss`. -/
def vmssLoop (cloud : AzureCloudState) (info : ClusterInfo) :
    List VMScaleSetData → List Resource → List (String × VMScaleSetData) →
    Except String (List Resource × List (String × VMScaleSetData))
  | [], rs, pids => .ok (rs, pids)
  | vmss :: rest, rs, pids =>
    match isOwnedByCluster info.Name vmss.Tags with
    | .error e => .error e
    | .ok false => vmssLoop cloud info rest rs pids
    | .ok true =>
      match cloud.vmssVMs vmss.Name with
      | .error e => .error e
      | .ok vms =>
        match toVMScaleSetResource info vmss vms with
        | .error e => .error e
        | .ok r => vmssLoop cloud info rest (rs ++ [r]) ((vmss.PrincipalID, vmss) :: pids)

/-- Embeds `listVMScaleSetsAndRoleAssignments` of `azure.go`. -/
def listVMScaleSetsAndRoleAssignments (cloud : AzureCloudState) (info : ClusterInfo) :
    Except String (List Resource) :=
  match cloud.vmScaleSets with
  | .error e => .error e
  | .ok vmsses =>
    match vmssLoop cloud info vmsses [] [] with
    | .error e => .error e
    | .ok (rs, pids) =>
      match listRoleAssignments cloud info pids with
      | .error e => .error e
      | .ok ras => .ok (rs ++ ras)

/-- Embeds `toDiskResource`: `Shared` is the zero value `false`. -/
def toDiskResource (info : ClusterInfo) (disk : DiskData) : Resource :=
  { Rtype := typeDisk
    ID := disk.Name
    Name := disk.Name
    Blocks := [toKey typeResourceGroup info.AzureResourceGroupName] }

/-- The loop body of `listDisks`. -/
def diskLoop (info : ClusterInfo) : List DiskData → Except String (List Resource)
  | [] => .ok []
  | disk :: rest =>
    match isOwnedByCluster info.Name disk.Tags with
    | .error e => .error e
    | .ok owned =>
      match diskLoop info rest with
      | .error e => .error e
      | .ok tail => .ok (if owned then toDiskResource info disk :: tail else tail)

/-- Embeds `listDisks` of `azure.go`. -/
def listDisks (cloud : AzureCloudState) (info : ClusterInfo) :
    Except String (List Resource) :=
  match cloud.disks with
  | .error e => .error e
  | .ok ds => diskLoop info ds

/-- The `pips` set collected from the frontend IP configurations in
`toLoadBalancerResource`. -/
def collectPIPs : List FrontendIPConfigData → List String → Except String (List String)
  | [], acc => .ok acc
  | fip :: rest, acc =>
    match fip.PublicIPAddressID with
    | none => collectPIPs rest acc
    | some id =>
      match ParsePublicIPAddressID id with
      | .error e => .error ("parsing public IP address ID: " ++ e)
      | .ok name => collectPIPs rest (insertIfAbsent acc name)

/-- Embeds `toLoadBalancerResource`: blocks the resource group and the referenced
public IP addresses; `Shared` is the zero value `false`. -/
def toLoadBalancerResource (info : ClusterInfo) (lb : LoadBalancerData) :
    Except String Resource :=
  match collectPIPs (lb.FrontendIPConfigurations.getD []) [] with
  | .error e => .error e
  | .ok pips =>
    .ok { Rtype := typeLoadBalancer
          ID := lb.Name
          Name := lb.Name
          Blocks := toKey typeResourceGroup info.AzureResourceGroupName ::
            pips.map (toKey typePublicIPAddress) }

/-- The loop body of `listLoadBalancers`. -/
def loadBalancerLoop (info : ClusterInfo) : List LoadBalancerData → Except String (List Resource)
  | [] => .ok []
  | lb :: rest =>
    match isOwnedByCluster info.Name lb.Tags with
    | .error e => .error e
    | .ok false => loadBalancerLoop info rest
    | .ok true =>
      match toLoadBalancerResource info lb with
      | .error e => .error e
      | .ok r =>
        match loadBalancerLoop info rest with
        | .error e => .error e
        | .ok tail => .ok (r :: tail)

/-- Embeds `listLoadBalancers` of `azure.go`. -/
def listLoadBalancers (cloud : AzureCloudState) (info : ClusterInfo) :
    Except String (List Resource) :=
  match cloud.loadBalancers with
  | .error e => .error e
  | .ok lbs => loadBalancerLoop info lbs

/-- Embeds `toPublicIPAddressResource`: `Shared` is the zero value `false`. -/
def toPublicIPAddressResource (info : ClusterInfo) (pip : PublicIPAddressData) : Resource :=
  { Rtype := typePublicIPAddress
    ID := pip.Name
    Name := pip.Name
    Blocks := [toKey typeResourceGroup info.AzureResourceGroupName] }

/-- The loop body of `listPublicIPAddresses`. -/
def publicIPAddressLoop (info : ClusterInfo) :
    List PublicIPAddressData → Except String (List Resource)
  | [] => .ok []
  | pip :: rest =>
    match isOwnedByCluster info.Name pip.Tags with
    | .error e => .error e
    | .ok owned =>
      match publicIPAddressLoop info rest with
      | .error e => .error e
      | .ok tail => .ok (if owned then toPublicIPAddressResource info pip :: tail else tail)

/-- Embeds `listPublicIPAddresses` of `azure.go`. -/
def listPublicIPAddresses (cloud : AzureCloudState) (info : ClusterInfo) :
    Except String (List Resource) :=
  match cloud.publicIPAddresses with
  | .error e => .error e
  | .ok pips => publicIPAddressLoop info pips

/-- Embeds `listAll` of `azure.go`: runs the eight listing functions in their fixed
order, returning the first error (with no results) or the concatenation of all
results. -/
def listAll (cloud : AzureCloudState) (info : ClusterInfo) : Except String (List Resource) :=
  match listResourceGroups cloud info with
  | .error e => .error e
  | .ok r1 =>
    match listVirtualNetworksAndSubnets cloud info with
    | .error e => .error e
    | .ok r2 =>
      match listNetworkSecurityGroups cloud info with
      | .error e => .error e
      | .ok r3 =>
        match listRouteTables cloud info with
        | .error e => .error e
        | .ok r4 =>
          match listVMScaleSetsAndRoleAssignments cloud info with
          | .error e => .error e
          | .ok r5 =>
            match listDisks cloud info with
            | .error e => .error e
            | .ok r6 =>
              match listLoadBalancers cloud info with
              | .error e => .error e
              | .ok r7 =>
                match listPublicIPAddresses cloud info with
                | .error e => .error e
                | .ok r8 => .ok (r1 ++ r2 ++ r3 ++ r4 ++ r5 ++ r6 ++ r7 ++ r8)

/-- Lookup in the keyed resource map (frontmost binding wins, matching Go's
overwrite-on-store combined with front insertion below). -/
def mapLookup : List (String × Resource) → String → Option Resource
  | [], _ => none
  | (k2, r) :: rest, k => if k2 = k then some r else mapLookup rest k

/-- The loop of `listResourcesAzure` converting the slice to a map keyed by
`toKey(r.Type, r.ID)`, skipping resources with `Done` set; a later store
shadows an earlier one under `mapLookup`, which is Go's map-store semantics. -/
def buildResourceMap : List Resource → List (String × Resource) → List (String × Resource)
  | [], acc => acc
  | r :: rest, acc =>
    buildResourceMap rest (if r.Done then acc else (toKey r.Rtype r.ID, r) :: acc)

/-- Embeds `listResourcesAzure` of `azure.go`. -/
def listResourcesAzure (cloud : AzureCloudState) (info : ClusterInfo) :
    Except String (List (String × Resource)) :=
  match listAll cloud info with
  | .error e => .error e
  | .ok rs => .ok (buildResourceMap rs [])

/-- The last descriptor in listing order that is not `Done` and derives key
`k` (the binding Go's overwrite-on-store leaves in the map). -/
def lastWritten (k : String) : List Resource → Option Resource
  | [] => none
  | r :: rest =>
    match lastWritten k rest with
    | some r2 => some r2
    | none => if r.Done = false ∧ toKey r.Rtype r.ID = k then some r else none

/-- Option fallback used to state the resource-map lookup characterization. -/
def orElseOpt (a b : Option Resource) : Option Resource :=
  match a with
  | some x => some x
  | none => b

/-- Returns true when the ownership filter terminated without faulting (its
Go run returned a boolean rather than panicking). -/
def isOkB (e : Except String Bool) : Bool :=
  match e with
  | .ok _ => true
  | .error _ => false

/-- A cloud state in which every listing call returns an empty result. -/
def emptyCloud : AzureCloudState :=
  { resourceGroups := .ok []
    virtualNetworks := .ok []
    subnets := fun _ => .ok []
    networkSecurityGroups := .ok []
    routeTables := .ok []
    vmScaleSets := .ok []
    vmssVMs := fun _ => .ok []
    disks := .ok []
    roleAssignments := .ok []
    loadBalancers := .ok []
    publicIPAddresses := .ok [] }

/-- A concrete cluster identity used by the concrete evaluations below. -/
def sampleInfo : ClusterInfo :=
  { Name := "cluster1"
    AzureResourceGroupName := "rg1"
    AzureResourceGroupShared := false
    AzureNetworkShared := false
    AzureRouteTableShared := false }

/-- Tags marking a cloud object as owned by `sampleInfo`'s cluster. -/
def ownedTags : List (String × Option String) := [(TagClusterName, some "cluster1")]

/-- A resource group owned by the sample cluster. -/
def rgSample : GroupData := { Name := "rg1", Tags := ownedTags }

/-- A cloud state whose virtual-network listing fails after a successful
resource-group listing. -/
def vnetFailCloud : AzureCloudState :=
  { emptyCloud with
      resourceGroups := .ok [rgSample]
      virtualNetworks := .error "listing virtual networks failed" }

/-- A cluster-owned scale set with no network interfaces, used by concrete
evaluations. -/
def vmssSample : VMScaleSetData :=
  { Name := "vmss1"
    Tags := ownedTags
    PrincipalID := "principal1"
    NetworkInterfaceConfigurations := [] }

/-- A role assignment whose principal is the sample scale set's principal. -/
def raSample : RoleAssignmentData := { Name := "ra1", PrincipalID := some "principal1" }

/-- A cloud state holding the sample scale set and role assignment. -/
def vmssCloud : AzureCloudState :=
  { emptyCloud with
      vmScaleSets := .ok [vmssSample]
      roleAssignments := .ok [raSample] }

/-- The resource the adapter derives from `vmssSample`. -/
def vmssSampleResource : Resource :=
  { Rtype := typeVMScaleSet
    ID := "vmss1"
    Name := "vmss1"
    Blocks := [toKey typeResourceGroup "rg1"] }

/-- The property C9 asserts of every emitted descriptor: a `ResourceGroup`
descriptor blocks nothing, and every other descriptor lists the resource
group's key among its `Blocks`. -/
def GroupBlockerSpec (info : ClusterInfo) (r : Resource) : Prop :=
  (r.Rtype = typeResourceGroup → r.Blocks = []) ∧
    (r.Rtype ≠ typeResourceGroup →
      toKey typeResourceGroup info.AzureResourceGroupName ∈ r.Blocks)

/-- An owned virtual network with no subnet payload on the network object. -/
def vnetSample : VirtualNetworkData :=
  { Name := "vnet1", Tags := ownedTags, Subnets := none }

/-- A subnet whose own tags do not mark cluster ownership. -/
def subnetSample : SubnetData :=
  { Name := "sub1", Tags := [("unrelated", some "tag")] }

/-- A cloud state with one owned virtual network and one subnet under it. -/
def vnetCloud : AzureCloudState :=
  { emptyCloud with
      virtualNetworks := .ok [vnetSample]
      subnets := fun n => if n = "vnet1" then .ok [subnetSample] else .ok [] }

/-- The resource the adapter derives from `vnetSample`. -/
def vnetSampleResource : Resource :=
  { Rtype := typeVirtualNetwork
    ID := "vnet1"
    Name := "vnet1"
    Blocks := [toKey typeResourceGroup "rg1"] }

/-- An owned disk used by concrete evaluations. -/
def diskSample : DiskData := { Name := "disk1", Tags := ownedTags }

/-- A cloud state with one owned resource group and one owned disk. -/
def rgDiskCloud : AzureCloudState :=
  { emptyCloud with
      resourceGroups := .ok [rgSample]
      disks := .ok [diskSample] }

/-- An owned virtual network whose subnet references a security group; its
resource collides in key with `vnetDupB`'s. -/
def vnetDupA : VirtualNetworkData :=
  { Name := "vnet1"
    Tags := ownedTags
    Subnets := some [{ NetworkSecurityGroupID := some "x/networkSecurityGroups/nsg1" }] }

/-- A second owned virtual network listed later under the same name. -/
def vnetDupB : VirtualNetworkData :=
  { Name := "vnet1", Tags := ownedTags, Subnets := none }

/-- A cloud state listing two virtual networks that derive the same key. -/
def dupVNetCloud : AzureCloudState :=
  { emptyCloud with virtualNetworks := .ok [vnetDupA, vnetDupB] }

/-- The resource derived from `vnetDupA` (blocks the referenced security
group). -/
def vnetDupAResource : Resource :=
  { Rtype := typeVirtualNetwork
    ID := "vnet1"
    Name := "vnet1"
    Blocks := [toKey typeResourceGroup "rg1", toKey typeNetworkSecurityGroup "nsg1"] }

/-- The resource derived from `vnetDupB`. -/
def vnetDupBResource : Resource :=
  { Rtype := typeVirtualNetwork
    ID := "vnet1"
    Name := "vnet1"
    Blocks := [toKey typeResourceGroup "rg1"] }

/-- Characterizes lookup in the map built by the loop of `listResourcesAzure`:
the last non-`Done` descriptor deriving the key wins, falling back to the
accumulator. -/
theorem mapLookup_buildResourceMap (k : String) (rs : List Resource) :
    ∀ acc : List (String × Resource),
      mapLookup (buildResourceMap rs acc) k = orElseOpt (lastWritten k rs) (mapLookup acc k) := by
  induction rs with
  | nil => intro acc; simp [buildResourceMap, lastWritten, orElseOpt]
  | cons r rest ih =>
    intro acc
    simp only [buildResourceMap, lastWritten]
    rw [ih]
    cases h : lastWritten k rest with
    | some r2 => simp [orElseOpt]
    | none =>
      by_cases hd : r.Done
      · simp [orElseOpt, hd, mapLookup]
      · by_cases hk : toKey r.Rtype r.ID = k
        · simp [orElseOpt, hd, hk, mapLookup]
        · simp [orElseOpt, hd, hk, mapLookup]

/-- A descriptor produced by `lastWritten` is not `Done`, derives the key it
is stored under, and comes from the listed slice. -/
theorem lastWritten_spec (k : String) (rs : List Resource) (r : Resource)
    (h : lastWritten k rs = some r) :
    r.Done = false ∧ toKey r.Rtype r.ID = k ∧ r ∈ rs := by
  induction rs with
  | nil => simp [lastWritten] at h
  | cons r1 rest ih =>
    rw [lastWritten] at h
    cases h2 : lastWritten k rest with
    | some r2 =>
      rw [h2] at h
      injection h with h
      subst h
      obtain ⟨a, b, c⟩ := ih h2
      exact ⟨a, b, List.mem_cons_of_mem _ c⟩
    | none =>
      rw [h2] at h
      by_cases hc : r1.Done = false ∧ toKey r1.Rtype r1.ID = k
      · rw [if_pos hc] at h
        injection h with h
        subst h
        exact ⟨hc.1, hc.2, List.mem_cons_self _ _⟩
      · rw [if_neg hc] at h
        exact absurd h (by simp)

/-- Inversion of the success case of `listResourcesAzure`. -/
theorem listResourcesAzure_ok (cloud : AzureCloudState) (info : ClusterInfo)
    (m : List (String × Resource)) (h : listResourcesAzure cloud info = .ok m) :
    ∃ rs, listAll cloud info = .ok rs ∧ m = buildResourceMap rs [] := by
  unfold listResourcesAzure at h
  cases h2 : listAll cloud info with
  | error e => rw [h2] at h; exact absurd h (by simp)
  | ok rs =>
    rw [h2] at h
    injection h with h
    exact ⟨rs, rfl, h.symm⟩

/-- C5: every binding of the keyed map returned by `listResourcesAzure` stores
its descriptor under the key `Type + ":" + ID` derived by `toKey` from the
descriptor alone. -/
theorem resource_map_key_is_type_colon_id
    (cloud : AzureCloudState) (info : ClusterInfo) (m : List (String × Resource))
    (k : String) (r : Resource)
    (hm : listResourcesAzure cloud info = .ok m)
    (hk : mapLookup m k = some r) :
    k = toKey r.Rtype r.ID := by
  obtain ⟨rs, hrs, rfl⟩ := listResourcesAzure_ok cloud info m hm
  rw [mapLookup_buildResourceMap] at hk
  cases h2 : lastWritten k rs with
  | none => rw [h2] at hk; simp [orElseOpt, mapLookup] at hk
  | some r2 =>
    rw [h2] at hk
    simp only [orElseOpt] at hk
    injection hk with hk
    subst hk
    exact (lastWritten_spec k rs r2 h2).2.1.symm

/-- C6: no binding of the keyed map returned by `listResourcesAzure` has
`Done = true`; descriptors with `Done` set are skipped by the conversion
loop. -/
theorem resource_map_excludes_done
    (cloud : AzureCloudState) (info : ClusterInfo) (m : List (String × Resource))
    (k : String) (r : Resource)
    (hm : listResourcesAzure cloud info = .ok m)
    (hk : mapLookup m k = some r) :
    r.Done = false := by
  obtain ⟨rs, hrs, rfl⟩ := listResourcesAzure_ok cloud info m hm
  rw [mapLookup_buildResourceMap] at hk
  cases h2 : lastWritten k rs with
  | none => rw [h2] at hk; simp [orElseOpt, mapLookup] at hk
  | some r2 =>
    rw [h2] at hk
    simp only [orElseOpt] at hk
    injection hk with hk
    subst hk
    exact (lastWritten_spec k rs r2 h2).1

/-- C7: duplicate keys never make the listing fail, and the returned map binds
each key to the last non-`Done` descriptor in listing order that derives it
(`lastWritten`), i.e. last-writer-wins. -/
theorem resource_map_last_writer_wins
    (cloud : AzureCloudState) (info : ClusterInfo) (rs : List Resource) (k : String)
    (h : listAll cloud info = .ok rs) :
    listResourcesAzure cloud info = .ok (buildResourceMap rs []) ∧
      mapLookup (buildResourceMap rs []) k = lastWritten k rs := by
  constructor
  · unfold listResourcesAzure
    rw [h]
  · rw [mapLookup_buildResourceMap]
    cases lastWritten k rs <;> simp [orElseOpt, mapLookup]

/-- C3: on a tag map (keys are unique in a Go map), `isOwnedByCluster` returns
true exactly when some tag has the designated cluster-name key and a value
equal (by exact string equality) to the cluster's name. The embedding is a
pure function, so the filter is side-effect-free by construction. -/
theorem isOwnedByCluster_iff_tag_matches (clusterName : String)
    (tags : List (String × Option String))
    (hnd : (tags.map Prod.fst).Nodup) :
    isOwnedByCluster clusterName tags = .ok true ↔
      ∃ p ∈ tags, p.1 = TagClusterName ∧ p.2 = some clusterName := by
  induction tags with
  | nil => simp [isOwnedByCluster]
  | cons t rest ih =>
    obtain ⟨k, v⟩ := t
    rw [List.map_cons, List.nodup_cons] at hnd
    obtain ⟨hk, hrest⟩ := hnd
    cases v with
    | none =>
      simp only [isOwnedByCluster]
      by_cases h1 : k = TagClusterName
      · rw [if_pos h1]
        constructor
        · intro h; exact absurd h (by simp)
        · rintro ⟨p, hp, hpk, hpv⟩
          rcases List.mem_cons.mp hp with h | h
          · subst h; exact absurd hpv (by simp)
          · have hmem := List.mem_map_of_mem Prod.fst h
            rw [hpk] at hmem
            rw [h1] at hk
            exact absurd hmem hk
      · rw [if_neg h1, ih hrest]
        constructor
        · rintro ⟨p, hp, hpk, hpv⟩
          exact ⟨p, List.mem_cons_of_mem _ hp, hpk, hpv⟩
        · rintro ⟨p, hp, hpk, hpv⟩
          rcases List.mem_cons.mp hp with h | h
          · subst h; exact absurd hpv (by simp)
          · exact ⟨p, h, hpk, hpv⟩
    | some s =>
      simp only [isOwnedByCluster]
      by_cases h1 : k = TagClusterName
      · rw [if_pos h1]
        by_cases h2 : s = clusterName
        · rw [if_pos h2]
          constructor
          · intro _
            exact ⟨(k, some s), List.mem_cons_self _ _, h1, by rw [h2]⟩
          · intro _; rfl
        · rw [if_neg h2, ih hrest]
          constructor
          · rintro ⟨p, hp, hpk, hpv⟩
            exact ⟨p, List.mem_cons_of_mem _ hp, hpk, hpv⟩
          · rintro ⟨p, hp, hpk, hpv⟩
            rcases List.mem_cons.mp hp with h | h
            · subst h
              exact absurd (Option.some.inj hpv) h2
            · exact ⟨p, h, hpk, hpv⟩
      · rw [if_neg h1, ih hrest]
        constructor
        · rintro ⟨p, hp, hpk, hpv⟩
          exact ⟨p, List.mem_cons_of_mem _ hp, hpk, hpv⟩
        · rintro ⟨p, hp, hpk, hpv⟩
          rcases List.mem_cons.mp hp with h | h
          · subst h; exact absurd hpk h1
          · exact ⟨p, h, hpk, hpv⟩

/-- Witness for C3 at a concrete tag map with a matching and a non-matching
tag. -/
theorem isOwnedByCluster_iff_tag_matches_witness :
    ([(TagClusterName, some "cluster1"), ("environment", some "prod")].map
        (Prod.fst (α := String) (β := Option String))).Nodup ∧
      (isOwnedByCluster "cluster1"
          [(TagClusterName, some "cluster1"), ("environment", some "prod")] = .ok true ↔
        ∃ p ∈ [(TagClusterName, some "cluster1"), ("environment", some "prod")],
          p.1 = TagClusterName ∧ p.2 = some "cluster1") :=
  ⟨by decide,
    isOwnedByCluster_iff_tag_matches "cluster1"
      [(TagClusterName, some "cluster1"), ("environment", some "prod")] (by decide)⟩

/-- Counterexample for C10's dereference clause: a nil tag value under a key
other than the cluster-name tag key is never dereferenced — the filter
returns a boolean instead of faulting, so it does not dereference each tag's
value pointer unconditionally. -/
theorem isOwnedByCluster_skips_non_matching_nil_value :
    isOwnedByCluster "cluster1" [("environment", (none : Option String))] = .ok false := by
  decide

/-- C10 (amended): the ownership filter is total — returns a boolean without
faulting — whenever every tag whose key is the designated cluster-name tag key
has a non-nil value; in particular for every tag map with all values non-nil.
The nil dereference is unreachable under that precondition. -/
theorem isOwnedByCluster_total_when_cluster_tag_values_present
    (clusterName : String) (tags : List (String × Option String))
    (h : ∀ p ∈ tags, p.1 = TagClusterName → (p.2).isSome) :
    isOkB (isOwnedByCluster clusterName tags) = true := by
  induction tags with
  | nil => rfl
  | cons t rest ih =>
    obtain ⟨k, v⟩ := t
    have hrest : ∀ p ∈ rest, p.1 = TagClusterName → (p.2).isSome :=
      fun p hp => h p (List.mem_cons_of_mem _ hp)
    cases v with
    | none =>
      simp only [isOwnedByCluster]
      by_cases h1 : k = TagClusterName
      · have hv := h (k, none) (List.mem_cons_self _ _) h1
        exact absurd hv (by simp)
      · rw [if_neg h1]; exact ih hrest
    | some s =>
      simp only [isOwnedByCluster]
      by_cases h1 : k = TagClusterName
      · rw [if_pos h1]
        by_cases h2 : s = clusterName
        · rw [if_pos h2]; rfl
        · rw [if_neg h2]; exact ih hrest
      · rw [if_neg h1]; exact ih hrest

/-- Witness for C10's amended totality statement at a concrete tag map that
contains a nil value under a non-matching key. -/
theorem isOwnedByCluster_total_witness :
    (∀ p ∈ [(TagClusterName, some "cluster1"), ("environment", (none : Option String))],
        p.1 = TagClusterName → (p.2).isSome) ∧
      isOkB (isOwnedByCluster "cluster1"
        [(TagClusterName, some "cluster1"), ("environment", none)]) = true :=
  ⟨by decide,
    isOwnedByCluster_total_when_cluster_tag_values_present "cluster1"
      [(TagClusterName, some "cluster1"), ("environment", none)] (by decide)⟩

/-- C1: the resource builders for VM scale sets, disks, role assignments, load
balancers and public IP addresses leave `Shared` at the zero value `false`
unconditionally (the `listAll` TODO in the source admits the `Shared` field is
not yet set for these kinds), so a shared resource of these kinds is never
emitted with `Shared = true`. -/
theorem azure_unshared_kinds_never_marked_shared
    (info : ClusterInfo) (vmss : VMScaleSetData) (vms : List VMData)
    (disk : DiskData) (ra : RoleAssignmentData) (vmss2 : VMScaleSetData)
    (lb : LoadBalancerData) (pip : PublicIPAddressData) :
    (toVMScaleSetResource info vmss vms).map Resource.Shared =
        (toVMScaleSetResource info vmss vms).map (fun _ => false) ∧
      (toDiskResource info disk).Shared = false ∧
      (toRoleAssignmentResource info ra vmss2).Shared = false ∧
      (toLoadBalancerResource info lb).map Resource.Shared =
        (toLoadBalancerResource info lb).map (fun _ => false) ∧
      (toPublicIPAddressResource info pip).Shared = false := by
  refine ⟨?_, rfl, rfl, ?_, rfl⟩
  · unfold toVMScaleSetResource
    cases collectNICs vmss.NetworkInterfaceConfigurations ([], [], []) with
    | error e => rfl
    | ok t => obtain ⟨a, b, c⟩ := t; rfl
  · unfold toLoadBalancerResource
    cases collectPIPs (lb.FrontendIPConfigurations.getD []) [] with
    | error e => rfl
    | ok l => rfl

/-- C2 (amended): a listing error for any of the eight resource kinds is a
hard failure for the whole run: `listAll` propagates the first error in the
fixed kind order with no results at all (kinds listed before the failing one
are discarded, kinds after it are not consulted), and returns a result exactly
when all eight kinds list successfully, returning their concatenation. One
conjunct per failing kind, plus the all-success case. -/
theorem listAll_aborts_on_listing_error
    (cloud : AzureCloudState) (info : ClusterInfo) (e : String)
    (l1 l2 l3 l4 l5 l6 l7 l8 : List Resource) :
    (listResourceGroups cloud info = .error e → listAll cloud info = .error e) ∧
      (listResourceGroups cloud info = .ok l1 →
        listVirtualNetworksAndSubnets cloud info = .error e →
        listAll cloud info = .error e) ∧
      (listResourceGroups cloud info = .ok l1 →
        listVirtualNetworksAndSubnets cloud info = .ok l2 →
        listNetworkSecurityGroups cloud info = .error e →
        listAll cloud info = .error e) ∧
      (listResourceGroups cloud info = .ok l1 →
        listVirtualNetworksAndSubnets cloud info = .ok l2 →
        listNetworkSecurityGroups cloud info = .ok l3 →
        listRouteTables cloud info = .error e →
        listAll cloud info = .error e) ∧
      (listResourceGroups cloud info = .ok l1 →
        listVirtualNetworksAndSubnets cloud info = .ok l2 →
        listNetworkSecurityGroups cloud info = .ok l3 →
        listRouteTables cloud info = .ok l4 →
        listVMScaleSetsAndRoleAssignments cloud info = .error e →
        listAll cloud info = .error e) ∧
      (listResourceGroups cloud info = .ok l1 →
        listVirtualNetworksAndSubnets cloud info = .ok l2 →
        listNetworkSecurityGroups cloud info = .ok l3 →
        listRouteTables cloud info = .ok l4 →
        listVMScaleSetsAndRoleAssignments cloud info = .ok l5 →
        listDisks cloud info = .error e →
        listAll cloud info = .error e) ∧
      (listResourceGroups cloud info = .ok l1 →
        listVirtualNetworksAndSubnets cloud info = .ok l2 →
        listNetworkSecurityGroups cloud info = .ok l3 →
        listRouteTables cloud info = .ok l4 →
        listVMScaleSetsAndRoleAssignments cloud info = .ok l5 →
        listDisks cloud info = .ok l6 →
        listLoadBalancers cloud info = .error e →
        listAll cloud info = .error e) ∧
      (listResourceGroups cloud info = .ok l1 →
        listVirtualNetworksAndSubnets cloud info = .ok l2 →
        listNetworkSecurityGroups cloud info = .ok l3 →
        listRouteTables cloud info = .ok l4 →
        listVMScaleSetsAndRoleAssignments cloud info = .ok l5 →
        listDisks cloud info = .ok l6 →
        listLoadBalancers cloud info = .ok l7 →
        listPublicIPAddresses cloud info = .error e →
        listAll cloud info = .error e) ∧
      (listResourceGroups cloud info = .ok l1 →
        listVirtualNetworksAndSubnets cloud info = .ok l2 →
        listNetworkSecurityGroups cloud info = .ok l3 →
        listRouteTables cloud info = .ok l4 →
        listVMScaleSetsAndRoleAssignments cloud info = .ok l5 →
        listDisks cloud info = .ok l6 →
        listLoadBalancers cloud info = .ok l7 →
        listPublicIPAddresses cloud info = .ok l8 →
        listAll cloud info = .ok (l1 ++ l2 ++ l3 ++ l4 ++ l5 ++ l6 ++ l7 ++ l8)) := by
  refine ⟨?_, ?_, ?_, ?_, ?_, ?_, ?_, ?_, ?_⟩
  · intro h1
    unfold listAll
    rw [h1]
  · intro h1 h2
    unfold listAll
    rw [h1, h2]
  · intro h1 h2 h3
    unfold listAll
    rw [h1, h2, h3]
  · intro h1 h2 h3 h4
    unfold listAll
    rw [h1, h2, h3, h4]
  · intro h1 h2 h3 h4 h5
    unfold listAll
    rw [h1, h2, h3, h4, h5]
  · intro h1 h2 h3 h4 h5 h6
    unfold listAll
    rw [h1, h2, h3, h4, h5, h6]
  · intro h1 h2 h3 h4 h5 h6 h7
    unfold listAll
    rw [h1, h2, h3, h4, h5, h6, h7]
  · intro h1 h2 h3 h4 h5 h6 h7 h8
    unfold listAll
    rw [h1, h2, h3, h4, h5, h6, h7, h8]
  · intro h1 h2 h3 h4 h5 h6 h7 h8
    unfold listAll
    rw [h1, h2, h3, h4, h5, h6, h7, h8]

/-- Counterexample for C2: the resource-group listing succeeds with one
resource, the virtual-network listing fails, and the overall run (`listAll`)
returns only the error — the resources listed by the successful kind are not
processed or returned alongside it. -/
theorem listing_error_drops_partial_results_cex :
    listResourceGroups vnetFailCloud sampleInfo =
        .ok [toResourceGroupResource sampleInfo rgSample] ∧
      listAll vnetFailCloud sampleInfo = .error "listing virtual networks failed" := by
  exact ⟨rfl, rfl⟩

/-- Witness for the amended C2 at the concrete failing cloud state,
discharging the failing-virtual-network conjunct of the theorem. -/
theorem listAll_aborts_on_listing_error_witness :
    listResourceGroups vnetFailCloud sampleInfo =
        .ok [toResourceGroupResource sampleInfo rgSample] ∧
      listVirtualNetworksAndSubnets vnetFailCloud sampleInfo =
        .error "listing virtual networks failed" ∧
      listAll vnetFailCloud sampleInfo = .error "listing virtual networks failed" :=
  ⟨rfl, rfl,
    (listAll_aborts_on_listing_error vnetFailCloud sampleInfo
          "listing virtual networks failed"
          [toResourceGroupResource sampleInfo rgSample] [] [] [] [] [] [] []).2.1
      rfl rfl⟩

/-- Membership of each subnet resource of an owned virtual network in the
output of the loop of `listVirtualNetworksAndSubnets`. -/
theorem vnetLoop_subnet_mem (cloud : AzureCloudState) (info : ClusterInfo)
    (vnet : VirtualNetworkData) (sns : List SubnetData) (sn : SubnetData)
    (hown : isOwnedByCluster info.Name vnet.Tags = .ok true)
    (hsns : cloud.subnets vnet.Name = .ok sns) (hsn : sn ∈ sns) :
    ∀ (l : List VirtualNetworkData) (rs : List Resource),
      vnetLoop cloud info l = .ok rs → vnet ∈ l →
        toSubnetResource info sn vnet.Name ∈ rs := by
  intro l
  induction l with
  | nil => intro rs _ hmem; exact absurd hmem (List.not_mem_nil _)
  | cons v rest ih =>
    intro rs hloop hmem
    rcases List.mem_cons.mp hmem with rfl | hmem2
    · simp only [vnetLoop] at hloop
      split at hloop
      · exact absurd hloop (by simp)
      · rename_i heq
        rw [hown] at heq
        exact absurd (Except.ok.inj heq) (by simp)
      · split at hloop
        · exact absurd hloop (by simp)
        · rename_i r hr
          split at hloop
          · exact absurd hloop (by simp)
          · rename_i sns2 hs2
            split at hloop
            · exact absurd hloop (by simp)
            · rename_i tail ht
              injection hloop with hloop
              subst hloop
              have hs3 : listSubnets cloud info vnet.Name =
                  .ok (sns.map (fun s => toSubnetResource info s vnet.Name)) := by
                unfold listSubnets
                rw [hsns]
              rw [hs3] at hs2
              have hsns2 := Except.ok.inj hs2
              apply List.mem_cons_of_mem
              apply List.mem_append_left
              rw [← hsns2]
              exact List.mem_map_of_mem _ hsn
    · simp only [vnetLoop] at hloop
      split at hloop
      · exact absurd hloop (by simp)
      · exact ih rs hloop hmem2
      · split at hloop
        · exact absurd hloop (by simp)
        · split at hloop
          · exact absurd hloop (by simp)
          · split at hloop
            · exact absurd hloop (by simp)
            · rename_i tail ht
              injection hloop with hloop
              subst hloop
              exact List.mem_cons_of_mem _
                (List.mem_append_right _ (ih tail ht hmem2))

/-- C4: when the virtual-network listing succeeds, every subnet of every
listed network that passes the ownership filter is materialized as a
descriptor — `SubnetData` carries tags the adapter never reads, so this holds
regardless of the subnet's own tags — and the subnet descriptor's `Blocks` is
exactly the parent network key and the resource group key. -/
theorem owned_vnet_subnets_materialized
    (cloud : AzureCloudState) (info : ClusterInfo)
    (vnets : List VirtualNetworkData) (rs : List Resource)
    (vnet : VirtualNetworkData) (sns : List SubnetData) (sn : SubnetData)
    (hv : cloud.virtualNetworks = .ok vnets)
    (hrs : listVirtualNetworksAndSubnets cloud info = .ok rs)
    (hmem : vnet ∈ vnets)
    (hown : isOwnedByCluster info.Name vnet.Tags = .ok true)
    (hsns : cloud.subnets vnet.Name = .ok sns)
    (hsn : sn ∈ sns) :
    toSubnetResource info sn vnet.Name ∈ rs ∧
      (toSubnetResource info sn vnet.Name).Blocks =
        [toKey typeVirtualNetwork vnet.Name,
          toKey typeResourceGroup info.AzureResourceGroupName] := by
  refine ⟨?_, rfl⟩
  have hloop : vnetLoop cloud info vnets = .ok rs := by
    unfold listVirtualNetworksAndSubnets at hrs
    rw [hv] at hrs
    exact hrs
  exact vnetLoop_subnet_mem cloud info vnet sns sn hown hsns hsn vnets rs hloop hmem

/-- Membership characterization of the role-assignment emission loop: a
resource is emitted exactly for the listed role assignments whose non-nil
principal ID is a key of the principal-ID map. -/
theorem roleAssignmentLoop_mem (info : ClusterInfo)
    (pids : List (String × VMScaleSetData)) :
    ∀ (ras : List RoleAssignmentData) (r : Resource),
      r ∈ roleAssignmentLoop info pids ras ↔
        ∃ ra ∈ ras, ∃ q vmss, ra.PrincipalID = some q ∧
          lookupVMSS pids q = some vmss ∧
          r = toRoleAssignmentResource info ra vmss := by
  intro ras
  induction ras with
  | nil => intro r; simp [roleAssignmentLoop]
  | cons ra rest ih =>
    intro r
    rw [List.exists_mem_cons_iff]
    cases hp : ra.PrincipalID with
    | none =>
      simp only [roleAssignmentLoop, hp]
      rw [ih r]
      constructor
      · intro h; exact Or.inr h
      · rintro (⟨q, vmss, hq, _, _⟩ | h)
        · exact absurd hq (by simp)
        · exact h
    | some q0 =>
      simp only [roleAssignmentLoop, hp]
      cases hl : lookupVMSS pids q0 with
      | none =>
        rw [ih r]
        constructor
        · intro h; exact Or.inr h
        · rintro (⟨q, vmss, hq, hlv, _⟩ | h)
          · injection hq with hq
            subst hq
            rw [hl] at hlv
            exact absurd hlv (by simp)
          · exact h
      | some vmss0 =>
        rw [List.mem_cons, ih r]
        constructor
        · rintro (h | h)
          · exact Or.inl ⟨q0, vmss0, rfl, hl, h⟩
          · exact Or.inr h
        · rintro (⟨q, vmss, hq, hlv, hr⟩ | h)
          · injection hq with hq
            subst hq
            rw [hl] at hlv
            injection hlv with hlv
            subst hlv
            exact Or.inl hr
          · exact Or.inr h

/-- Invariant of the scale-set loop: every binding of the accumulated
principal-ID map either was already present or records an ownership-filtered
scale set under its own principal ID. -/
theorem vmssLoop_pids_inv (cloud : AzureCloudState) (info : ClusterInfo) :
    ∀ (l : List VMScaleSetData) (rs0 : List Resource)
      (pids0 : List (String × VMScaleSetData)) (vrs : List Resource)
      (pids : List (String × VMScaleSetData)),
      vmssLoop cloud info l rs0 pids0 = .ok (vrs, pids) →
      ∀ (q : String) (vmss : VMScaleSetData), lookupVMSS pids q = some vmss →
        lookupVMSS pids0 q = some vmss ∨
          (vmss.PrincipalID = q ∧ vmss ∈ l ∧
            isOwnedByCluster info.Name vmss.Tags = .ok true) := by
  intro l
  induction l with
  | nil =>
    intro rs0 pids0 vrs pids hloop q vmss hl
    simp only [vmssLoop] at hloop
    injection hloop with hpair
    injection hpair with h1 h2
    subst h2
    exact Or.inl hl
  | cons v rest ih =>
    intro rs0 pids0 vrs pids hloop q vmss hl
    simp only [vmssLoop] at hloop
    split at hloop
    · exact absurd hloop (by simp)
    · rcases ih rs0 pids0 vrs pids hloop q vmss hl with h | ⟨h1, h2, h3⟩
      · exact Or.inl h
      · exact Or.inr ⟨h1, List.mem_cons_of_mem _ h2, h3⟩
    · rename_i howned
      split at hloop
      · exact absurd hloop (by simp)
      · rename_i vms hvms
        split at hloop
        · exact absurd hloop (by simp)
        · rename_i r hr
          rcases ih (rs0 ++ [r]) ((v.PrincipalID, v) :: pids0) vrs pids hloop q vmss hl with
            h | ⟨h1, h2, h3⟩
          · rw [lookupVMSS] at h
            by_cases hq : v.PrincipalID = q
            · rw [if_pos hq] at h
              injection h with h
              subst h
              exact Or.inr ⟨hq, List.mem_cons_self _ _, howned⟩
            · rw [if_neg hq] at h
              exact Or.inl h
          · exact Or.inr ⟨h1, List.mem_cons_of_mem _ h2, h3⟩

/-- Monotonicity of the scale-set loop's principal-ID map: a key bound in the
accumulator stays bound in the final map (insertions only shadow, never
remove). -/
theorem vmssLoop_pids_mono (cloud : AzureCloudState) (info : ClusterInfo) :
    ∀ (l : List VMScaleSetData) (rs0 : List Resource)
      (pids0 : List (String × VMScaleSetData)) (vrs : List Resource)
      (pids : List (String × VMScaleSetData)) (q : String) (w : VMScaleSetData),
      vmssLoop cloud info l rs0 pids0 = .ok (vrs, pids) →
      lookupVMSS pids0 q = some w →
      ∃ w2, lookupVMSS pids q = some w2 := by
  intro l
  induction l with
  | nil =>
    intro rs0 pids0 vrs pids q w h hq
    simp only [vmssLoop] at h
    injection h with h
    injection h with h1 h2
    subst h2
    exact ⟨w, hq⟩
  | cons v rest ih =>
    intro rs0 pids0 vrs pids q w h hq
    simp only [vmssLoop] at h
    split at h
    · exact absurd h (by simp)
    · exact ih rs0 pids0 vrs pids q w h hq
    · split at h
      · exact absurd h (by simp)
      · rename_i vms hvms
        split at h
        · exact absurd h (by simp)
        · rename_i r0 hr0
          by_cases hk : v.PrincipalID = q
          · exact ih _ _ vrs pids q v h (by rw [lookupVMSS, if_pos hk])
          · exact ih _ _ vrs pids q w h (by rw [lookupVMSS, if_neg hk]; exact hq)

/-- Completeness of the scale-set loop's principal-ID map: every listed scale
set that passes the ownership filter ends up with its principal ID bound in
the final map. -/
theorem vmssLoop_pids_complete (cloud : AzureCloudState) (info : ClusterInfo) :
    ∀ (l : List VMScaleSetData) (rs0 : List Resource)
      (pids0 : List (String × VMScaleSetData)) (vrs : List Resource)
      (pids : List (String × VMScaleSetData)) (v : VMScaleSetData),
      vmssLoop cloud info l rs0 pids0 = .ok (vrs, pids) →
      v ∈ l → isOwnedByCluster info.Name v.Tags = .ok true →
      ∃ w, lookupVMSS pids v.PrincipalID = some w := by
  intro l
  induction l with
  | nil =>
    intro rs0 pids0 vrs pids v _ hmem _
    exact absurd hmem (List.not_mem_nil _)
  | cons v0 rest ih =>
    intro rs0 pids0 vrs pids v h hmem hown
    simp only [vmssLoop] at h
    split at h
    · exact absurd h (by simp)
    · rename_i heq
      rcases List.mem_cons.mp hmem with rfl | hmem2
      · rw [hown] at heq
        exact absurd (Except.ok.inj heq) (by simp)
      · exact ih rs0 pids0 vrs pids v h hmem2 hown
    · split at h
      · exact absurd h (by simp)
      · rename_i vms hvms
        split at h
        · exact absurd h (by simp)
        · rename_i r0 hr0
          rcases List.mem_cons.mp hmem with rfl | hmem2
          · exact vmssLoop_pids_mono cloud info rest _ _ vrs pids v.PrincipalID v h
              (by rw [lookupVMSS, if_pos rfl])
          · exact ih _ _ vrs pids v h hmem2 hown

/-- C8: with the principal-ID map accumulated by the scale-set loop, a role
assignment is emitted iff its principal ID is non-nil and is the principal ID
of one of the cluster-owned scale sets — soundness (every binding of the map
is an owned listed scale set keyed by its own principal), completeness (every
owned listed scale set's principal is bound, so a listed role assignment with
that principal is emitted), and the emitted descriptor blocks exactly the
resource group key and that scale set's key. -/
theorem role_assignment_emitted_iff_owned_vmss_principal
    (cloud : AzureCloudState) (info : ClusterInfo)
    (vmsses : List VMScaleSetData) (vrs : List Resource)
    (pids : List (String × VMScaleSetData)) (ras : List RoleAssignmentData)
    (r : Resource) (p : String) (vmss0 : VMScaleSetData) (ra0 : RoleAssignmentData)
    (v : VMScaleSetData)
    (hloop : vmssLoop cloud info vmsses [] [] = .ok (vrs, pids))
    (hras : cloud.roleAssignments = .ok ras) :
    listRoleAssignments cloud info pids = .ok (roleAssignmentLoop info pids ras) ∧
      (r ∈ roleAssignmentLoop info pids ras ↔
        ∃ ra ∈ ras, ∃ q vmss, ra.PrincipalID = some q ∧
          lookupVMSS pids q = some vmss ∧
          r = toRoleAssignmentResource info ra vmss) ∧
      (lookupVMSS pids p = some vmss0 →
        vmss0.PrincipalID = p ∧ vmss0 ∈ vmsses ∧
          isOwnedByCluster info.Name vmss0.Tags = .ok true) ∧
      (v ∈ vmsses → isOwnedByCluster info.Name v.Tags = .ok true →
        ∃ w, lookupVMSS pids v.PrincipalID = some w) ∧
      (ra0 ∈ ras → ra0.PrincipalID = some v.PrincipalID → v ∈ vmsses →
        isOwnedByCluster info.Name v.Tags = .ok true →
        ∃ w, lookupVMSS pids v.PrincipalID = some w ∧
          toRoleAssignmentResource info ra0 w ∈ roleAssignmentLoop info pids ras) ∧
      (toRoleAssignmentResource info ra0 vmss0).Blocks =
        [toKey typeResourceGroup info.AzureResourceGroupName,
          toKey typeVMScaleSet vmss0.Name] := by
  refine ⟨?_, roleAssignmentLoop_mem info pids ras r, ?_, ?_, ?_, rfl⟩
  · unfold listRoleAssignments
    rw [hras]
  · intro hl
    rcases vmssLoop_pids_inv cloud info vmsses [] [] vrs pids hloop p vmss0 hl with h | h
    · exact absurd h (by simp [lookupVMSS])
    · exact h
  · intro hv hown
    exact vmssLoop_pids_complete cloud info vmsses [] [] vrs pids v hloop hv hown
  · intro hra hp hv hown
    obtain ⟨w, hw⟩ :=
      vmssLoop_pids_complete cloud info vmsses [] [] vrs pids v hloop hv hown
    refine ⟨w, hw, ?_⟩
    exact (roleAssignmentLoop_mem info pids ras _).mpr
      ⟨ra0, hra, v.PrincipalID, w, hp, hw, rfl⟩

/-- Witness for C8 at the concrete scale set and role assignment. -/
theorem role_assignment_emitted_witness :
    vmssLoop vmssCloud sampleInfo [vmssSample] [] [] =
        .ok ([vmssSampleResource], [("principal1", vmssSample)]) ∧
      vmssCloud.roleAssignments = .ok [raSample] ∧
      (listRoleAssignments vmssCloud sampleInfo [("principal1", vmssSample)] =
          .ok (roleAssignmentLoop sampleInfo [("principal1", vmssSample)] [raSample]) ∧
        (toRoleAssignmentResource sampleInfo raSample vmssSample ∈
            roleAssignmentLoop sampleInfo [("principal1", vmssSample)] [raSample] ↔
          ∃ ra ∈ [raSample], ∃ q vmss, ra.PrincipalID = some q ∧
            lookupVMSS [("principal1", vmssSample)] q = some vmss ∧
            toRoleAssignmentResource sampleInfo raSample vmssSample =
              toRoleAssignmentResource sampleInfo ra vmss) ∧
        (lookupVMSS [("principal1", vmssSample)] "principal1" = some vmssSample →
          vmssSample.PrincipalID = "principal1" ∧ vmssSample ∈ [vmssSample] ∧
            isOwnedByCluster sampleInfo.Name vmssSample.Tags = .ok true) ∧
        (vmssSample ∈ [vmssSample] →
          isOwnedByCluster sampleInfo.Name vmssSample.Tags = .ok true →
          ∃ w, lookupVMSS [("principal1", vmssSample)] vmssSample.PrincipalID = some w) ∧
        (raSample ∈ [raSample] →
          raSample.PrincipalID = some vmssSample.PrincipalID →
          vmssSample ∈ [vmssSample] →
          isOwnedByCluster sampleInfo.Name vmssSample.Tags = .ok true →
          ∃ w, lookupVMSS [("principal1", vmssSample)] vmssSample.PrincipalID = some w ∧
            toRoleAssignmentResource sampleInfo raSample w ∈
              roleAssignmentLoop sampleInfo [("principal1", vmssSample)] [raSample]) ∧
        (toRoleAssignmentResource sampleInfo raSample vmssSample).Blocks =
          [toKey typeResourceGroup sampleInfo.AzureResourceGroupName,
            toKey typeVMScaleSet vmssSample.Name]) :=
  ⟨by decide, by decide,
    role_assignment_emitted_iff_owned_vmss_principal vmssCloud sampleInfo [vmssSample]
      [vmssSampleResource] [("principal1", vmssSample)] [raSample]
      (toRoleAssignmentResource sampleInfo raSample vmssSample) "principal1" vmssSample
      raSample vmssSample (by decide) (by decide)⟩

theorem toResourceGroupResource_spec (info : ClusterInfo) (rg : GroupData) :
    GroupBlockerSpec info (toResourceGroupResource info rg) :=
  ⟨fun _ => rfl, fun hne => absurd rfl hne⟩

theorem toSubnetResource_spec (info : ClusterInfo) (sn : SubnetData) (vn : String) :
    GroupBlockerSpec info (toSubnetResource info sn vn) :=
  ⟨fun hc => absurd hc (show typeSubnet ≠ typeResourceGroup by decide),
    fun _ => List.mem_cons_of_mem _ (List.mem_cons_self _ _)⟩

theorem toNetworkSecurityGroupResource_spec (info : ClusterInfo)
    (nsg : NetworkSecurityGroupData) :
    GroupBlockerSpec info (toNetworkSecurityGroupResource info nsg) :=
  ⟨fun hc => absurd hc (show typeNetworkSecurityGroup ≠ typeResourceGroup by decide), fun _ => List.mem_cons_self _ _⟩

theorem toRouteTableResource_spec (info : ClusterInfo) (rt : RouteTableData) :
    GroupBlockerSpec info (toRouteTableResource info rt) :=
  ⟨fun hc => absurd hc (show typeRouteTable ≠ typeResourceGroup by decide), fun _ => List.mem_cons_self _ _⟩

theorem toDiskResource_spec (info : ClusterInfo) (d : DiskData) :
    GroupBlockerSpec info (toDiskResource info d) :=
  ⟨fun hc => absurd hc (show typeDisk ≠ typeResourceGroup by decide), fun _ => List.mem_cons_self _ _⟩

theorem toRoleAssignmentResource_spec (info : ClusterInfo) (ra : RoleAssignmentData)
    (vmss : VMScaleSetData) :
    GroupBlockerSpec info (toRoleAssignmentResource info ra vmss) :=
  ⟨fun hc => absurd hc (show typeRoleAssignment ≠ typeResourceGroup by decide), fun _ => List.mem_cons_self _ _⟩

theorem toPublicIPAddressResource_spec (info : ClusterInfo) (pip : PublicIPAddressData) :
    GroupBlockerSpec info (toPublicIPAddressResource info pip) :=
  ⟨fun hc => absurd hc (show typePublicIPAddress ≠ typeResourceGroup by decide), fun _ => List.mem_cons_self _ _⟩

theorem toVirtualNetworkResource_spec (info : ClusterInfo) (v : VirtualNetworkData)
    (r : Resource) (h : toVirtualNetworkResource info v = .ok r) :
    GroupBlockerSpec info r := by
  unfold toVirtualNetworkResource at h
  split at h
  · exact absurd h (by simp)
  · injection h with h
    subst h
    exact ⟨fun hc => absurd hc (show typeVirtualNetwork ≠ typeResourceGroup by decide), fun _ => List.mem_cons_self _ _⟩

theorem toVMScaleSetResource_spec (info : ClusterInfo) (v : VMScaleSetData)
    (vms : List VMData) (r : Resource) (h : toVMScaleSetResource info v vms = .ok r) :
    GroupBlockerSpec info r := by
  unfold toVMScaleSetResource at h
  split at h
  · exact absurd h (by simp)
  · injection h with h
    subst h
    exact ⟨fun hc => absurd hc (show typeVMScaleSet ≠ typeResourceGroup by decide), fun _ => List.mem_cons_self _ _⟩

theorem toLoadBalancerResource_spec (info : ClusterInfo) (lb : LoadBalancerData)
    (r : Resource) (h : toLoadBalancerResource info lb = .ok r) :
    GroupBlockerSpec info r := by
  unfold toLoadBalancerResource at h
  split at h
  · exact absurd h (by simp)
  · injection h with h
    subst h
    exact ⟨fun hc => absurd hc (show typeLoadBalancer ≠ typeResourceGroup by decide), fun _ => List.mem_cons_self _ _⟩

theorem resourceGroupLoop_spec (info : ClusterInfo) :
    ∀ (l : List GroupData) (rs : List Resource),
      resourceGroupLoop info l = .ok rs → ∀ r ∈ rs, GroupBlockerSpec info r := by
  intro l
  induction l with
  | nil =>
    intro rs h r hr
    simp only [resourceGroupLoop] at h
    injection h with h
    subst h
    exact absurd hr (List.not_mem_nil _)
  | cons rg rest ih =>
    intro rs h r hr
    simp only [resourceGroupLoop] at h
    split at h
    · exact absurd h (by simp)
    · rename_i owned howned
      split at h
      · exact absurd h (by simp)
      · rename_i tail htail
        injection h with h
        subst h
        cases owned with
        | false =>
          have hr2 : r ∈ tail := by simpa using hr
          exact ih tail htail r hr2
        | true =>
          have hr2 : r ∈ toResourceGroupResource info rg :: tail := by simpa using hr
          rcases List.mem_cons.mp hr2 with rfl | hr3
          · exact toResourceGroupResource_spec info rg
          · exact ih tail htail r hr3

theorem listResourceGroups_spec (cloud : AzureCloudState) (info : ClusterInfo)
    (l : List Resource) (h : listResourceGroups cloud info = .ok l) :
    ∀ r ∈ l, GroupBlockerSpec info r := by
  unfold listResourceGroups at h
  split at h
  · exact absurd h (by simp)
  · exact resourceGroupLoop_spec info _ l h

theorem listSubnets_spec (cloud : AzureCloudState) (info : ClusterInfo) (vn : String)
    (l : List Resource) (h : listSubnets cloud info vn = .ok l) :
    ∀ r ∈ l, GroupBlockerSpec info r := by
  unfold listSubnets at h
  split at h
  · exact absurd h (by simp)
  · injection h with h
    subst h
    intro r hr
    obtain ⟨sn, _, rfl⟩ := List.mem_map.mp hr
    exact toSubnetResource_spec info sn vn

theorem vnetLoop_spec (cloud : AzureCloudState) (info : ClusterInfo) :
    ∀ (l : List VirtualNetworkData) (rs : List Resource),
      vnetLoop cloud info l = .ok rs → ∀ r ∈ rs, GroupBlockerSpec info r := by
  intro l
  induction l with
  | nil =>
    intro rs h r hr
    simp only [vnetLoop] at h
    injection h with h
    subst h
    exact absurd hr (List.not_mem_nil _)
  | cons v rest ih =>
    intro rs h r hr
    simp only [vnetLoop] at h
    split at h
    · exact absurd h (by simp)
    · exact ih rs h r hr
    · split at h
      · exact absurd h (by simp)
      · rename_i r0 hr0
        split at h
        · exact absurd h (by simp)
        · rename_i sns2 hs2
          split at h
          · exact absurd h (by simp)
          · rename_i tail htail
            injection h with h
            subst h
            rcases List.mem_cons.mp hr with rfl | hr2
            · exact toVirtualNetworkResource_spec info v r hr0
            · rcases List.mem_append.mp hr2 with h2 | h2
              · exact listSubnets_spec cloud info v.Name sns2 hs2 r h2
              · exact ih tail htail r h2

theorem listVirtualNetworksAndSubnets_spec (cloud : AzureCloudState) (info : ClusterInfo)
    (l : List Resource) (h : listVirtualNetworksAndSubnets cloud info = .ok l) :
    ∀ r ∈ l, GroupBlockerSpec info r := by
  unfold listVirtualNetworksAndSubnets at h
  split at h
  · exact absurd h (by simp)
  · exact vnetLoop_spec cloud info _ l h

theorem listNetworkSecurityGroups_spec (cloud : AzureCloudState) (info : ClusterInfo)
    (l : List Resource) (h : listNetworkSecurityGroups cloud info = .ok l) :
    ∀ r ∈ l, GroupBlockerSpec info r := by
  unfold listNetworkSecurityGroups at h
  split at h
  · exact absurd h (by simp)
  · injection h with h
    subst h
    intro r hr
    obtain ⟨nsg, _, rfl⟩ := List.mem_map.mp hr
    exact toNetworkSecurityGroupResource_spec info nsg

theorem routeTableLoop_spec (info : ClusterInfo) :
    ∀ (l : List RouteTableData) (rs : List Resource),
      routeTableLoop info l = .ok rs → ∀ r ∈ rs, GroupBlockerSpec info r := by
  intro l
  induction l with
  | nil =>
    intro rs h r hr
    simp only [routeTableLoop] at h
    injection h with h
    subst h
    exact absurd hr (List.not_mem_nil _)
  | cons rt rest ih =>
    intro rs h r hr
    simp only [routeTableLoop] at h
    split at h
    · exact absurd h (by simp)
    · rename_i owned howned
      split at h
      · exact absurd h (by simp)
      · rename_i tail htail
        injection h with h
        subst h
        cases owned with
        | false =>
          have hr2 : r ∈ tail := by simpa using hr
          exact ih tail htail r hr2
        | true =>
          have hr2 : r ∈ toRouteTableResource info rt :: tail := by simpa using hr
          rcases List.mem_cons.mp hr2 with rfl | hr3
          · exact toRouteTableResource_spec info rt
          · exact ih tail htail r hr3

theorem listRouteTables_spec (cloud : AzureCloudState) (info : ClusterInfo)
    (l : List Resource) (h : listRouteTables cloud info = .ok l) :
    ∀ r ∈ l, GroupBlockerSpec info r := by
  unfold listRouteTables at h
  split at h
  · exact absurd h (by simp)
  · exact routeTableLoop_spec info _ l h

theorem vmssLoop_spec (cloud : AzureCloudState) (info : ClusterInfo) :
    ∀ (l : List VMScaleSetData) (rs0 : List Resource)
      (pids0 : List (String × VMScaleSetData)) (vrs : List Resource)
      (pids : List (String × VMScaleSetData)),
      vmssLoop cloud info l rs0 pids0 = .ok (vrs, pids) →
      (∀ r ∈ rs0, GroupBlockerSpec info r) → ∀ r ∈ vrs, GroupBlockerSpec info r := by
  intro l
  induction l with
  | nil =>
    intro rs0 pids0 vrs pids h hacc r hr
    simp only [vmssLoop] at h
    injection h with h
    injection h with h1 h2
    subst h1
    exact hacc r hr
  | cons v rest ih =>
    intro rs0 pids0 vrs pids h hacc r hr
    simp only [vmssLoop] at h
    split at h
    · exact absurd h (by simp)
    · exact ih rs0 pids0 vrs pids h hacc r hr
    · split at h
      · exact absurd h (by simp)
      · rename_i vms hvms
        split at h
        · exact absurd h (by simp)
        · rename_i r0 hr0
          refine ih (rs0 ++ [r0]) _ vrs pids h ?_ r hr
          intro r2 hr2
          rcases List.mem_append.mp hr2 with h2 | h2
          · exact hacc r2 h2
          · rcases List.mem_cons.mp h2 with rfl | h3
            · exact toVMScaleSetResource_spec info v vms r2 hr0
            · exact absurd h3 (List.not_mem_nil _)

theorem listVMScaleSetsAndRoleAssignments_spec (cloud : AzureCloudState)
    (info : ClusterInfo) (l : List Resource)
    (h : listVMScaleSetsAndRoleAssignments cloud info = .ok l) :
    ∀ r ∈ l, GroupBlockerSpec info r := by
  unfold listVMScaleSetsAndRoleAssignments at h
  split at h
  · exact absurd h (by simp)
  · split at h
    · exact absurd h (by simp)
    · rename_i vrs pids hloop
      split at h
      · exact absurd h (by simp)
      · rename_i ras2 hras2
        injection h with h
        subst h
        intro r hr
        rcases List.mem_append.mp hr with h2 | h2
        · exact vmssLoop_spec cloud info _ [] [] vrs pids hloop
            (fun r2 hr2 => absurd hr2 (List.not_mem_nil _)) r h2
        · unfold listRoleAssignments at hras2
          split at hras2
          · exact absurd hras2 (by simp)
          · injection hras2 with hras2
            subst hras2
            obtain ⟨ra, _, q, vmss, _, _, rfl⟩ :=
              (roleAssignmentLoop_mem info pids _ r).mp h2
            exact toRoleAssignmentResource_spec info ra vmss

theorem diskLoop_spec (info : ClusterInfo) :
    ∀ (l : List DiskData) (rs : List Resource),
      diskLoop info l = .ok rs → ∀ r ∈ rs, GroupBlockerSpec info r := by
  intro l
  induction l with
  | nil =>
    intro rs h r hr
    simp only [diskLoop] at h
    injection h with h
    subst h
    exact absurd hr (List.not_mem_nil _)
  | cons d rest ih =>
    intro rs h r hr
    simp only [diskLoop] at h
    split at h
    · exact absurd h (by simp)
    · rename_i owned howned
      split at h
      · exact absurd h (by simp)
      · rename_i tail htail
        injection h with h
        subst h
        cases owned with
        | false =>
          have hr2 : r ∈ tail := by simpa using hr
          exact ih tail htail r hr2
        | true =>
          have hr2 : r ∈ toDiskResource info d :: tail := by simpa using hr
          rcases List.mem_cons.mp hr2 with rfl | hr3
          · exact toDiskResource_spec info d
          · exact ih tail htail r hr3

theorem listDisks_spec (cloud : AzureCloudState) (info : ClusterInfo)
    (l : List Resource) (h : listDisks cloud info = .ok l) :
    ∀ r ∈ l, GroupBlockerSpec info r := by
  unfold listDisks at h
  split at h
  · exact absurd h (by simp)
  · exact diskLoop_spec info _ l h

theorem loadBalancerLoop_spec (info : ClusterInfo) :
    ∀ (l : List LoadBalancerData) (rs : List Resource),
      loadBalancerLoop info l = .ok rs → ∀ r ∈ rs, GroupBlockerSpec info r := by
  intro l
  induction l with
  | nil =>
    intro rs h r hr
    simp only [loadBalancerLoop] at h
    injection h with h
    subst h
    exact absurd hr (List.not_mem_nil _)
  | cons lb rest ih =>
    intro rs h r hr
    simp only [loadBalancerLoop] at h
    split at h
    · exact absurd h (by simp)
    · exact ih rs h r hr
    · split at h
      · exact absurd h (by simp)
      · rename_i r0 hr0
        split at h
        · exact absurd h (by simp)
        · rename_i tail htail
          injection h with h
          subst h
          rcases List.mem_cons.mp hr with rfl | hr2
          · exact toLoadBalancerResource_spec info lb r hr0
          · exact ih tail htail r hr2

theorem listLoadBalancers_spec (cloud : AzureCloudState) (info : ClusterInfo)
    (l : List Resource) (h : listLoadBalancers cloud info = .ok l) :
    ∀ r ∈ l, GroupBlockerSpec info r := by
  unfold listLoadBalancers at h
  split at h
  · exact absurd h (by simp)
  · exact loadBalancerLoop_spec info _ l h

theorem publicIPAddressLoop_spec (info : ClusterInfo) :
    ∀ (l : List PublicIPAddressData) (rs : List Resource),
      publicIPAddressLoop info l = .ok rs → ∀ r ∈ rs, GroupBlockerSpec info r := by
  intro l
  induction l with
  | nil =>
    intro rs h r hr
    simp only [publicIPAddressLoop] at h
    injection h with h
    subst h
    exact absurd hr (List.not_mem_nil _)
  | cons pip rest ih =>
    intro rs h r hr
    simp only [publicIPAddressLoop] at h
    split at h
    · exact absurd h (by simp)
    · rename_i owned howned
      split at h
      · exact absurd h (by simp)
      · rename_i tail htail
        injection h with h
        subst h
        cases owned with
        | false =>
          have hr2 : r ∈ tail := by simpa using hr
          exact ih tail htail r hr2
        | true =>
          have hr2 : r ∈ toPublicIPAddressResource info pip :: tail := by simpa using hr
          rcases List.mem_cons.mp hr2 with rfl | hr3
          · exact toPublicIPAddressResource_spec info pip
          · exact ih tail htail r hr3

theorem listPublicIPAddresses_spec (cloud : AzureCloudState) (info : ClusterInfo)
    (l : List Resource) (h : listPublicIPAddresses cloud info = .ok l) :
    ∀ r ∈ l, GroupBlockerSpec info r := by
  unfold listPublicIPAddresses at h
  split at h
  · exact absurd h (by simp)
  · exact publicIPAddressLoop_spec info _ l h

/-- C9: every descriptor emitted by a successful `listAll` run satisfies
`GroupBlockerSpec`: the `ResourceGroup` descriptor has empty `Blocks`, and
every other descriptor lists the resource group's key in its `Blocks`, so the
resource group is deletable only after every other emitted resource. -/
theorem resource_group_blocked_by_all_others
    (cloud : AzureCloudState) (info : ClusterInfo) (rs : List Resource) (r : Resource)
    (h : listAll cloud info = .ok rs) (hr : r ∈ rs) :
    GroupBlockerSpec info r := by
  unfold listAll at h
  split at h
  · exact absurd h (by simp)
  · rename_i r1 h1
    split at h
    · exact absurd h (by simp)
    · rename_i r2 h2
      split at h
      · exact absurd h (by simp)
      · rename_i r3 h3
        split at h
        · exact absurd h (by simp)
        · rename_i r4 h4
          split at h
          · exact absurd h (by simp)
          · rename_i r5 h5
            split at h
            · exact absurd h (by simp)
            · rename_i r6 h6
              split at h
              · exact absurd h (by simp)
              · rename_i r7 h7
                split at h
                · exact absurd h (by simp)
                · rename_i r8 h8
                  injection h with h
                  subst h
                  rcases List.mem_append.mp hr with hr | hr
                  rotate_left
                  · exact listPublicIPAddresses_spec cloud info r8 h8 r hr
                  rcases List.mem_append.mp hr with hr | hr
                  rotate_left
                  · exact listLoadBalancers_spec cloud info r7 h7 r hr
                  rcases List.mem_append.mp hr with hr | hr
                  rotate_left
                  · exact listDisks_spec cloud info r6 h6 r hr
                  rcases List.mem_append.mp hr with hr | hr
                  rotate_left
                  · exact listVMScaleSetsAndRoleAssignments_spec cloud info r5 h5 r hr
                  rcases List.mem_append.mp hr with hr | hr
                  rotate_left
                  · exact listRouteTables_spec cloud info r4 h4 r hr
                  rcases List.mem_append.mp hr with hr | hr
                  rotate_left
                  · exact listNetworkSecurityGroups_spec cloud info r3 h3 r hr
                  rcases List.mem_append.mp hr with hr | hr
                  · exact listResourceGroups_spec cloud info r1 h1 r hr
                  · exact listVirtualNetworksAndSubnets_spec cloud info r2 h2 r hr

/-- Witness for C4 at the concrete owned network and its untagged subnet. -/
theorem owned_vnet_subnets_materialized_witness :
    vnetCloud.virtualNetworks = .ok [vnetSample] ∧
      listVirtualNetworksAndSubnets vnetCloud sampleInfo =
        .ok [vnetSampleResource, toSubnetResource sampleInfo subnetSample "vnet1"] ∧
      vnetSample ∈ [vnetSample] ∧
      isOwnedByCluster sampleInfo.Name vnetSample.Tags = .ok true ∧
      vnetCloud.subnets vnetSample.Name = .ok [subnetSample] ∧
      subnetSample ∈ [subnetSample] ∧
      (toSubnetResource sampleInfo subnetSample vnetSample.Name ∈
          [vnetSampleResource, toSubnetResource sampleInfo subnetSample "vnet1"] ∧
        (toSubnetResource sampleInfo subnetSample vnetSample.Name).Blocks =
          [toKey typeVirtualNetwork vnetSample.Name,
            toKey typeResourceGroup sampleInfo.AzureResourceGroupName]) :=
  ⟨by decide, by decide, by decide, by decide, by decide, by decide,
    owned_vnet_subnets_materialized vnetCloud sampleInfo [vnetSample]
      [vnetSampleResource, toSubnetResource sampleInfo subnetSample "vnet1"]
      vnetSample [subnetSample] subnetSample (by decide) (by decide) (by decide)
      (by decide) (by decide) (by decide)⟩

/-- Witness for C5 at the concrete two-resource listing. -/
theorem resource_map_key_is_type_colon_id_witness :
    listResourcesAzure rgDiskCloud sampleInfo =
        .ok (buildResourceMap
          [toResourceGroupResource sampleInfo rgSample,
            toDiskResource sampleInfo diskSample] []) ∧
      mapLookup
          (buildResourceMap
            [toResourceGroupResource sampleInfo rgSample,
              toDiskResource sampleInfo diskSample] [])
          (toKey typeDisk "disk1") =
        some (toDiskResource sampleInfo diskSample) ∧
      toKey typeDisk "disk1" =
        toKey (toDiskResource sampleInfo diskSample).Rtype
          (toDiskResource sampleInfo diskSample).ID :=
  ⟨by decide, by decide,
    resource_map_key_is_type_colon_id rgDiskCloud sampleInfo
      (buildResourceMap
        [toResourceGroupResource sampleInfo rgSample,
          toDiskResource sampleInfo diskSample] [])
      (toKey typeDisk "disk1") (toDiskResource sampleInfo diskSample)
      (by decide) (by decide)⟩

/-- Witness for C6 at the concrete two-resource listing. -/
theorem resource_map_excludes_done_witness :
    listResourcesAzure rgDiskCloud sampleInfo =
        .ok (buildResourceMap
          [toResourceGroupResource sampleInfo rgSample,
            toDiskResource sampleInfo diskSample] []) ∧
      mapLookup
          (buildResourceMap
            [toResourceGroupResource sampleInfo rgSample,
              toDiskResource sampleInfo diskSample] [])
          (toKey typeResourceGroup "rg1") =
        some (toResourceGroupResource sampleInfo rgSample) ∧
      (toResourceGroupResource sampleInfo rgSample).Done = false :=
  ⟨by decide, by decide,
    resource_map_excludes_done rgDiskCloud sampleInfo
      (buildResourceMap
        [toResourceGroupResource sampleInfo rgSample,
          toDiskResource sampleInfo diskSample] [])
      (toKey typeResourceGroup "rg1") (toResourceGroupResource sampleInfo rgSample)
      (by decide) (by decide)⟩

/-- Witness for C7 at a concrete listing with two distinct descriptors of the
same key: the later one is bound in the map. -/
theorem resource_map_last_writer_wins_witness :
    listAll dupVNetCloud sampleInfo = .ok [vnetDupAResource, vnetDupBResource] ∧
      (listResourcesAzure dupVNetCloud sampleInfo =
          .ok (buildResourceMap [vnetDupAResource, vnetDupBResource] []) ∧
        mapLookup (buildResourceMap [vnetDupAResource, vnetDupBResource] [])
            (toKey typeVirtualNetwork "vnet1") =
          lastWritten (toKey typeVirtualNetwork "vnet1")
            [vnetDupAResource, vnetDupBResource]) ∧
      lastWritten (toKey typeVirtualNetwork "vnet1")
          [vnetDupAResource, vnetDupBResource] =
        some vnetDupBResource :=
  ⟨by decide,
    resource_map_last_writer_wins dupVNetCloud sampleInfo
      [vnetDupAResource, vnetDupBResource] (toKey typeVirtualNetwork "vnet1")
      (by decide),
    by decide⟩

/-- Witness for C9 at the concrete two-resource listing. -/
theorem resource_group_blocked_by_all_others_witness :
    listAll rgDiskCloud sampleInfo =
        .ok [toResourceGroupResource sampleInfo rgSample,
          toDiskResource sampleInfo diskSample] ∧
      toDiskResource sampleInfo diskSample ∈
        [toResourceGroupResource sampleInfo rgSample,
          toDiskResource sampleInfo diskSample] ∧
      GroupBlockerSpec sampleInfo (toDiskResource sampleInfo diskSample) :=
  ⟨by decide, by decide,
    resource_group_blocked_by_all_others rgDiskCloud sampleInfo
      [toResourceGroupResource sampleInfo rgSample,
        toDiskResource sampleInfo diskSample]
      (toDiskResource sampleInfo diskSample) (by decide) (by decide)⟩
